import Mathlib

/-!
Shallow embedding of `src/daily_batch.py`, the daily multi-model health
batch script.  External effects (HTTP fetches, the OpenAI-style completion
endpoint, the whisper POST endpoint, JSON parsing of the whisper response,
and temporary-file removal) are modelled as `Except String`-valued fields
of per-probe environments: `Except.error e` models the call raising a
Python exception whose `str` is `e`.  Each probe is translated statement
by statement from its `try` block; the `except Exception as e` handler
becomes a match converting `Except.error e` into a failure record.
-/

/-- Python string slicing `s[:n]` for a nonnegative bound: the first `n`
characters of `s`. -/
def pyTake (n : Nat) (s : String) : String := ⟨s.data.take n⟩

/-- An HTTP response as seen by the script: `requests` does not raise on
non-2xx statuses, so a response value carries its status code and its
decoded body (`.text` for text fetches, the raw body handed to `.json()`
for the whisper POST). -/
structure HttpResp where
  status : Nat
  body : String
deriving DecidableEq, Repr

/-- The base64 alphabet used by `base64.b64encode`. -/
def b64Alphabet : List Char :=
  ("ABCDEFGHIJKLMNOPQRSTUVWXYZabcdefghijklmnopqrstuvwxyz0123456789+/").data

/-- Character of the base64 alphabet at index `n`. -/
def b64Char (n : Nat) : Char := b64Alphabet.getD n ('A')

/-- Base64 encoding of a byte list, three input bytes per four output
characters, padded with `=` (models `base64.b64encode(...).decode()`). -/
def b64encodeList : List Nat → List Char
  | [] => []
  | [b0] => [b64Char (b0 / 4), b64Char (b0 % 4 * 16), '=', '=']
  | [b0, b1] =>
      [b64Char (b0 / 4), b64Char (b0 % 4 * 16 + b1 / 16), b64Char (b1 % 16 * 4), '=']
  | b0 :: b1 :: b2 :: rest =>
      b64Char (b0 / 4) :: b64Char (b0 % 4 * 16 + b1 / 16) ::
        b64Char (b1 % 16 * 4 + b2 / 64) :: b64Char (b2 % 64) :: b64encodeList rest

/-- Base64 encoding as a string. -/
def b64encode (bs : List Nat) : String := ⟨b64encodeList bs⟩

/-- A per-model result record, exactly the two dict shapes the script
assigns to `report["results"][key]`: the success shape
`{"status": "success", "input": url, "output_preview": preview}` and the
failure shape `{"status": "failure", "error": str(e)}`. -/
inductive ProbeResult where
  | success (input : String) (output_preview : String)
  | failure (error : String)
deriving DecidableEq, Repr

/-- The report value the script builds: `{"date": ..., "run_time": ...,
"results": {...}}`, with `results` as an insertion-ordered key/record
association list (Python dicts preserve insertion order). -/
structure Report where
  date : String
  run_time : String
  results : List (String × ProbeResult)
deriving DecidableEq, Repr

/-- Configuration constant `SIMPLISMART_BASE_URL`. -/
def SIMPLISMART_BASE_URL : String := "https://api.simplismart.live"

/-- Configuration constant `WHISPER_URL`. -/
def WHISPER_URL : String := "https://http.whisper.proxy.prod.s9t.link/model/infer/whisper"

/-- The candidate list `text_sources` of the text probe. -/
def text_sources : List String :=
  ["https://www.gutenberg.org/files/84/84-0.txt",
   "https://www.gutenberg.org/files/1342/1342-0.txt",
   "https://www.gutenberg.org/files/11/11-0.txt"]

/-- The candidate list `audio_sources` of the audio probe. -/
def audio_sources : List String :=
  ["https://upload.wikimedia.org/wikipedia/commons/4/45/En-us-hello.ogg",
   "https://upload.wikimedia.org/wikipedia/commons/3/3c/En-us-weather.ogg"]

/-- The candidate list `image_sources` of the image probe. -/
def image_sources : List String :=
  ["https://upload.wikimedia.org/wikipedia/commons/4/4b/ReceiptSwiss.jpg",
   "https://upload.wikimedia.org/wikipedia/commons/3/3f/Fax2.png"]

/-- The URL `random.choice(text_sources)` picks, with the random draw
modelled as an arbitrary natural number taken modulo the list length. -/
def chosenTextUrl (c : Nat) : String := text_sources.getD (c % text_sources.length) ("")

/-- The URL `random.choice(audio_sources)` picks. -/
def audioUrl (c : Nat) : String := audio_sources.getD (c % audio_sources.length) ("")

/-- The URL `random.choice(image_sources)` picks. -/
def imageUrl (c : Nat) : String := image_sources.getD (c % image_sources.length) ("")

/-- Content of a chat completion request: the text probe sends a single
text turn, the image probe sends a text instruction plus an inline base64
image attachment. -/
inductive ChatContent where
  | text (s : String)
  | multi (instruction : String) (image_b64 : String)
deriving DecidableEq, Repr

/-- A chat completion request as issued through the OpenAI client,
including the client-level configuration (API key, base URL, tenant id
header) the script sets at client construction time. -/
structure ChatRequest where
  api_key : String
  base_url : String
  header_id : String
  model : String
  content : ChatContent
  max_tokens : Nat
  temperature : Nat
deriving DecidableEq, Repr

/-- Environment of the text probe: the random draw, the behavior of
`requests.get` on a URL, and the behavior of
`client.chat.completions.create` on a request (returning
`resp.choices[0].message.content` on success). -/
structure TextEnv where
  choice : Nat
  fetch : String → Except String HttpResp
  complete : ChatRequest → Except String String

/-- The text of the fetched document truncated to its first 2000
characters: `requests.get(text_url, timeout=20).text[:2000]`. -/
def truncatedFetch (env : TextEnv) (url : String) : Except String String :=
  match env.fetch url with
  | Except.error e => Except.error e
  | Except.ok r => Except.ok (pyTake 2000 r.body)

/-- The completion request the text probe submits for truncated text `t`:
model `openai/gpt-oss-120b`, single user turn `"Summarize this text:\n" + t`,
`max_tokens=300`, `temperature=0`, under the GPT tenant id header. -/
def textRequest (key : String) (t : String) : ChatRequest :=
  { api_key := key
    base_url := SIMPLISMART_BASE_URL
    header_id := "524436ef-5d4c-4d55-9351-71d67036b92b"
    model := "openai/gpt-oss-120b"
    content := ChatContent.text ("Summarize this text:\n" ++ t)
    max_tokens := 300
    temperature := 0 }

/-- Body of the text probe's `try` block: pick the URL, fetch and
truncate, submit the completion request, and build the success record
with `output_preview` the first 300 characters of the model output.
`Except.error e` models an exception escaping the block. -/
def textTry (key : String) (env : TextEnv) : Except String ProbeResult :=
  match truncatedFetch env (chosenTextUrl env.choice) with
  | Except.error e => Except.error e
  | Except.ok t =>
    match env.complete (textRequest key t) with
    | Except.error e => Except.error e
    | Except.ok c =>
        Except.ok (ProbeResult.success (chosenTextUrl env.choice) (pyTake 300 c))

/-- The record the text probe stores under `gpt_oss_120b`: the `try`
body's record, or the failure record built by the `except` handler. -/
def textProbe (key : String) (env : TextEnv) : ProbeResult :=
  match textTry key env with
  | Except.ok r => r
  | Except.error e => ProbeResult.failure e

/-- The JSON payload of the whisper request:
`{"audio_file": b64, "task": "transcribe", "language": "en",
"without_timestamps": True}`. -/
structure WhisperPayload where
  audio_file : String
  task : String
  language : String
  without_timestamps : Bool
deriving DecidableEq, Repr

/-- The headers of the whisper request: bearer-token authorization plus
a JSON content type. -/
structure WhisperHeaders where
  authorization : String
  contentType : String
deriving DecidableEq, Repr

/-- The payload the audio probe builds from the base64 audio. -/
def whisperPayload (b64 : String) : WhisperPayload :=
  { audio_file := b64
    task := "transcribe"
    language := "en"
    without_timestamps := true }

/-- The headers the audio probe sends:
`Authorization: Bearer <key>`, `Content-Type: application/json`. -/
def whisperHeaders (key : String) : WhisperHeaders :=
  { authorization := "Bearer " ++ key
    contentType := "application/json" }

/-- Environment of the audio probe: the random draw; `fetchAudio`, the
chunked streaming download of the clip to `sample_audio.ogg` followed by
reading the file back (either step may raise), yielding the file's bytes;
`post`, the behavior of `requests.post(WHISPER_URL, json=payload,
headers=headers, timeout=60)` (raises on network error or timeout, and
returns the response without any status check otherwise); `parseJson`,
the behavior of `.json()` followed by `str(resp)` as a function of the
response body alone (raises when the body is not valid JSON); and
`removeResult`, the behavior of `os.remove(audio_path)`. -/
structure AudioEnv where
  choice : Nat
  fetchAudio : String → Except String (List Nat)
  post : WhisperPayload → WhisperHeaders → Except String HttpResp
  parseJson : String → Except String String
  removeResult : Except String Unit

/-- The audio probe's `try` block up to and including the assignment of
the success record (everything before `os.remove`): download, base64
encode, POST, parse the response as JSON, and build the success record
whose preview is `str(resp)[:300]`. -/
def audioTryToAssign (key : String) (env : AudioEnv) : Except String ProbeResult :=
  match env.fetchAudio (audioUrl env.choice) with
  | Except.error e => Except.error e
  | Except.ok bytes =>
    match env.post (whisperPayload (b64encode bytes)) (whisperHeaders key) with
    | Except.error e => Except.error e
    | Except.ok resp =>
      match env.parseJson resp.body with
      | Except.error e => Except.error e
      | Except.ok s =>
          Except.ok (ProbeResult.success (audioUrl env.choice) (pyTake 300 s))

/-- The sequence of records assigned to
`report["results"]["whisper_large_v2"]` during the audio probe, in
order.  When the body fails before the assignment, the `except` handler
assigns one failure record.  When the body reaches the assignment, the
success record is assigned; if `os.remove` then raises, the `except`
handler assigns a second, failure record over it. -/
def audioAssigned (key : String) (env : AudioEnv) : List ProbeResult :=
  match audioTryToAssign key env with
  | Except.error e => [ProbeResult.failure e]
  | Except.ok rec =>
    match env.removeResult with
    | Except.ok _ => [rec]
    | Except.error e => [rec, ProbeResult.failure e]

/-- The record left under `whisper_large_v2` when the audio probe ends:
the last record assigned. -/
def audioProbe (key : String) (env : AudioEnv) : ProbeResult :=
  match audioTryToAssign key env with
  | Except.error e => ProbeResult.failure e
  | Except.ok rec =>
    match env.removeResult with
    | Except.ok _ => rec
    | Except.error e => ProbeResult.failure e

/-- Environment of the image probe: the random draw, the behavior of
`requests.get(image_url, timeout=20).content` (raw image bytes), and the
behavior of `client.chat.completions.create` on a request. -/
structure ImageEnv where
  choice : Nat
  fetchBytes : String → Except String (List Nat)
  complete : ChatRequest → Except String String

/-- The completion request the image probe submits for base64 image
`b64`: model `deepseek-ai/DeepSeek-OCR`, a user turn holding the
instruction text and the inline base64 image, `max_tokens=500`,
`temperature=0`, under the OCR tenant id header. -/
def imageRequest (key : String) (b64 : String) : ChatRequest :=
  { api_key := key
    base_url := SIMPLISMART_BASE_URL
    header_id := "81095ce8-515a-442a-8514-d4424ec84ce2"
    model := "deepseek-ai/DeepSeek-OCR"
    content := ChatContent.multi ("Extract all readable text from this image") b64
    max_tokens := 500
    temperature := 0 }

/-- Body of the image probe's `try` block: pick the URL, fetch the
bytes, base64 encode, submit the OCR request, and build the success
record with `output_preview` the first 300 characters of the output. -/
def imageTry (key : String) (env : ImageEnv) : Except String ProbeResult :=
  match env.fetchBytes (imageUrl env.choice) with
  | Except.error e => Except.error e
  | Except.ok bytes =>
    match env.complete (imageRequest key (b64encode bytes)) with
    | Except.error e => Except.error e
    | Except.ok c =>
        Except.ok (ProbeResult.success (imageUrl env.choice) (pyTake 300 c))

/-- The record the image probe stores under `deepseek_ocr`. -/
def imageProbe (key : String) (env : ImageEnv) : ProbeResult :=
  match imageTry key env with
  | Except.ok r => r
  | Except.error e => ProbeResult.failure e

/-- The credential check: `SIMPLISMART_API_KEY = os.getenv(...)` followed
by `if not SIMPLISMART_API_KEY: raise RuntimeError(...)`.  `os.getenv`
yields `None` when unset; both `None` and the empty string are falsy, so
either aborts the run. -/
def getKey (apiKey : Option String) : Except String String :=
  match apiKey with
  | none => Except.error ("SIMPLISMART_API_KEY not set")
  | some k =>
    if k = "" then Except.error ("SIMPLISMART_API_KEY not set")
    else Except.ok k

/-- The output directory `os.path.join(BASE_DIR, "output")` for
`BASE_DIR = os.getcwd()`. -/
def OUTPUT_DIR (cwd : String) : String := cwd ++ "/output"

/-- The report path
`os.path.join(OUTPUT_DIR, f"daily_model_health_{today}.json")`. -/
def outputPath (cwd today : String) : String :=
  OUTPUT_DIR cwd ++ "/daily_model_health_" ++ today ++ ".json"

/-- Hexadecimal digit character. -/
def hexDigit (n : Nat) : Char := ("0123456789abcdef").data.getD n ('0')

/-- Four-digit hexadecimal rendering of a code point below 2^16. -/
def hex4 (n : Nat) : String :=
  ⟨[hexDigit (n / 4096 % 16), hexDigit (n / 256 % 16), hexDigit (n / 16 % 16), hexDigit (n % 16)]⟩

/-- JSON escaping of one character as `json.dumps` does with its default
`ensure_ascii=True`: short escapes for backslash, quote and common
control characters, `\uXXXX` for other control characters and for
everything outside printable ASCII, surrogate pairs above 2^16. -/
def jsonEscapeChar (c : Char) : String :=
  if c = '\\' then "\\\\"
  else if c = '"' then "\\\""
  else if c = '\n' then "\\n"
  else if c = '\t' then "\\t"
  else if c = '\r' then "\\r"
  else if c.toNat = 8 then "\\b"
  else if c.toNat = 12 then "\\f"
  else if c.toNat < 32 then "\\u" ++ hex4 c.toNat
  else if c.toNat < 127 then ⟨[c]⟩
  else if c.toNat < 65536 then "\\u" ++ hex4 c.toNat
  else
    "\\u" ++ hex4 (55296 + (c.toNat - 65536) / 1024) ++
      "\\u" ++ hex4 (56320 + (c.toNat - 65536) % 1024)

/-- JSON escaping of a string. -/
def jsonEscape (s : String) : String := String.join (s.data.map jsonEscapeChar)

/-- A JSON string literal. -/
def jsonStr (s : String) : String := "\"" ++ jsonEscape s ++ "\""

/-- Indentation of `n` spaces. -/
def spaces (n : Nat) : String := ⟨List.replicate n ' '⟩

/-- A JSON object with already-serialized field values, rendered the way
`json.dumps(..., indent=2)` renders a dict whose fields sit at indent
`ind`: items on their own lines separated by commas, closing brace at
`ind - 2`. -/
def dumpsFields (ind : Nat) (fs : List (String × String)) : String :=
  match fs with
  | [] => "\x7b\x7d"
  | _ =>
      "\x7b\n" ++
        String.intercalate (",\n")
          (fs.map (fun kv => spaces ind ++ jsonStr kv.1 ++ ": " ++ kv.2)) ++
        "\n" ++ spaces (ind - 2) ++ "\x7d"

/-- Serialization of one result record at field indent `ind`. -/
def dumpRecord (ind : Nat) : ProbeResult → String
  | ProbeResult.success inp prev =>
      dumpsFields ind
        [("status", jsonStr ("success")), ("input", jsonStr inp),
         ("output_preview", jsonStr prev)]
  | ProbeResult.failure e =>
      dumpsFields ind [("status", jsonStr ("failure")), ("error", jsonStr e)]

/-- Serialization of the whole report, as produced identically by
`json.dump(report, f, indent=2)` and `json.dumps(report, indent=2)`. -/
def jsonDumps (rep : Report) : String :=
  dumpsFields 2
    [("date", jsonStr rep.date), ("run_time", jsonStr rep.run_time),
     ("results", dumpsFields 4 (rep.results.map (fun kr => (kr.1, dumpRecord 6 kr.2))))]

/-- The whole run's inputs: the credential environment variable, the
working directory, the date and wall-clock strings, and the three probe
environments. -/
structure RunEnv where
  apiKey : Option String
  cwd : String
  today : String
  run_time : String
  text : TextEnv
  audio : AudioEnv
  image : ImageEnv

/-- What a completed run leaves behind: the in-memory report, the path
written, the file content, and the text printed to standard output (the
payload handed to `print`). -/
structure RunOutcome where
  report : Report
  path : String
  fileContent : String
  stdout : String
deriving DecidableEq, Repr

/-- An observable action of the run, used to state that nothing at all
happens when the credential check fails. -/
inductive Event where
  | probeRun (name : String)
  | fileWrite (path content : String)
  | stdoutWrite (s : String)
deriving DecidableEq, Repr

/-- The report the script has built after the three probe blocks: the
metadata dict plus the three entries inserted in the script's fixed
order. -/
def builtReport (key : String) (env : RunEnv) : Report :=
  { date := env.today
    run_time := env.run_time
    results :=
      [("gpt_oss_120b", textProbe key env.text),
       ("whisper_large_v2", audioProbe key env.audio),
       ("deepseek_ocr", imageProbe key env.image)] }

/-- The whole script: the credential check aborts the run with the
`RuntimeError`; otherwise the three probes run, the report is assembled,
serialized once, written to the date-keyed path, and the same
serialization is printed. -/
def runScript (env : RunEnv) : Except String RunOutcome :=
  match getKey env.apiKey with
  | Except.error e => Except.error e
  | Except.ok key =>
      Except.ok
        { report := builtReport key env
          path := outputPath env.cwd env.today
          fileContent := jsonDumps (builtReport key env)
          stdout := jsonDumps (builtReport key env) }

/-- The run's observable actions in order: nothing when the credential
check fails (the `raise` happens before any probe), otherwise the three
probes in fixed order followed by the file write and the print. -/
def runEvents (env : RunEnv) : List Event :=
  match getKey env.apiKey with
  | Except.error _ => []
  | Except.ok key =>
      [Event.probeRun ("gpt_oss_120b"), Event.probeRun ("whisper_large_v2"),
       Event.probeRun ("deepseek_ocr"),
       Event.fileWrite (outputPath env.cwd env.today) (jsonDumps (builtReport key env)),
       Event.stdoutWrite (jsonDumps (builtReport key env))]

/-- A file system as a map from paths to file contents. -/
def FS : Type := String → Option String

/-- Writing a file with mode `"w"`: truncate and replace whatever was at
the path, leave every other path unchanged. -/
def writeFile (fs : FS) (p c : String) : FS :=
  fun q => if q = p then some c else fs q

/-- A text environment whose fetch and completion both succeed. -/
def textEnvA : TextEnv :=
  { choice := 0
    fetch := fun _ => Except.ok { status := 200, body := "some text" }
    complete := fun _ => Except.ok "sum" }

/-- An audio environment where every step succeeds. -/
def audioEnvA : AudioEnv :=
  { choice := 0
    fetchAudio := fun _ => Except.ok [104, 105]
    post := fun _ _ => Except.ok { status := 200, body := "\x7b\x7d" }
    parseJson := fun s => Except.ok s
    removeResult := Except.ok () }

/-- An image environment where every step succeeds. -/
def imageEnvA : ImageEnv :=
  { choice := 1
    fetchBytes := fun _ => Except.ok [1, 2, 3]
    complete := fun _ => Except.ok "ocr text" }

/-- A run environment with a nonempty key and three succeeding probes. -/
def envAll : RunEnv :=
  { apiKey := some "k"
    cwd := "/app"
    today := "2026-01-01"
    run_time := "09:00"
    text := textEnvA
    audio := audioEnvA
    image := imageEnvA }

/-- The report `envAll` builds. -/
def repAll : Report := builtReport ("k") envAll

/-- The outcome of running on `envAll`. -/
def outAll : RunOutcome :=
  { report := repAll
    path := outputPath ("/app") ("2026-01-01")
    fileContent := jsonDumps repAll
    stdout := jsonDumps repAll }

/-- The run environment of `envAll` with the credential variable unset. -/
def envNoKey : RunEnv :=
  { envAll with apiKey := none }

/-- The run environment of `envAll` with an empty credential. -/
def envEmptyKey : RunEnv :=
  { envAll with apiKey := some "" }

/-- A text environment whose source responds with HTTP status 500: the
fetch itself does not raise, and the completion call succeeds. -/
def textEnv500 : TextEnv :=
  { choice := 0
    fetch := fun _ => Except.ok { status := 500, body := "Internal Server Error" }
    complete := fun _ => Except.ok "sum" }

/-- The run environment of `envAll` with the 500-responding text source. -/
def env500 : RunEnv :=
  { envAll with text := textEnv500 }

/-- A text environment whose fetch raises. -/
def textEnvRaise : TextEnv :=
  { textEnvA with fetch := fun _ => Except.error "boom" }

/-- The run environment of `envAll` with the raising text fetch. -/
def envTextRaise : RunEnv :=
  { envAll with text := textEnvRaise }

/-- The audio environment of `audioEnvA` with `os.remove` raising after
the success record has been assigned. -/
def audioEnvRemoveFail : AudioEnv :=
  { audioEnvA with removeResult := Except.error "remove failed" }

/-- The audio environment of `audioEnvA` whose whisper POST answers with
HTTP status 500 and a JSON body. -/
def audioEnv500 : AudioEnv :=
  { audioEnvA with post := fun _ _ => Except.ok { status := 500, body := "\x7b\x7d" } }

/-- The report `env500` builds. -/
def rep500 : Report := builtReport ("k") env500

/-- The outcome of running on `env500`. -/
def out500 : RunOutcome :=
  { report := rep500
    path := outputPath ("/app") ("2026-01-01")
    fileContent := jsonDumps rep500
    stdout := jsonDumps rep500 }

/-- An empty file system, used to exercise the write path. -/
def emptyFS : FS := fun _ => none

/-- Inversion of a completed run: the key check passed and every outcome
field is the assembled value. -/
theorem runScript_ok_inv (env : RunEnv) (o : RunOutcome) (h : runScript env = Except.ok o) :
    ∃ key, getKey env.apiKey = Except.ok key ∧
      o = { report := builtReport key env
            path := outputPath env.cwd env.today
            fileContent := jsonDumps (builtReport key env)
            stdout := jsonDumps (builtReport key env) } := by
  unfold runScript at h
  cases hk : getKey env.apiKey with
  | error e => rw [hk] at h; exact absurd h (by simp)
  | ok key =>
      rw [hk] at h
      exact ⟨key, rfl, by injection h with h2; exact h2.symm⟩

/-- The length of a Python slice `s[:n]` is at most `n`. -/
theorem pyTake_length_le (n : Nat) (s : String) : (pyTake n s).length ≤ n := by
  show (s.data.take n).length ≤ n
  rw [List.length_take]
  exact min_le_left _ _


/-- A success record of the text probe has a preview of at most 300
characters. -/
theorem textProbe_preview_le (key : String) (env : TextEnv) (inp prev : String)
    (h : textProbe key env = ProbeResult.success inp prev) : prev.length ≤ 300 := by
  unfold textProbe textTry truncatedFetch at h
  split at h
  · next r heq =>
      subst h
      repeat' split at heq
      all_goals
        first
          | (injection heq with h1; injection h1 with ha hb; rw [← hb];
             exact pyTake_length_le 300 _)
          | injection heq
  · next e heq => simp at h

/-- A record the audio probe body hands to its success assignment is a
success record for the chosen URL whose preview is a 300-character
slice. -/
theorem audioTryToAssign_ok_shape (key : String) (env : AudioEnv) (rec : ProbeResult)
    (h : audioTryToAssign key env = Except.ok rec) :
    ∃ s, rec = ProbeResult.success (audioUrl env.choice) (pyTake 300 s) := by
  unfold audioTryToAssign at h
  repeat' split at h
  all_goals
    first
      | (injection h with h1; exact ⟨_, h1.symm⟩)
      | injection h

/-- A success record of the audio probe has a preview of at most 300
characters. -/
theorem audioProbe_preview_le (key : String) (env : AudioEnv) (inp prev : String)
    (h : audioProbe key env = ProbeResult.success inp prev) : prev.length ≤ 300 := by
  unfold audioProbe at h
  split at h
  · next e heq => simp at h
  · next rec heq =>
      obtain ⟨s, hs⟩ := audioTryToAssign_ok_shape key env rec heq
      split at h
      · subst hs
        injection h with h1 h2
        rw [← h2]
        exact pyTake_length_le 300 s
      · simp at h

/-- A success record of the image probe has a preview of at most 300
characters. -/
theorem imageProbe_preview_le (key : String) (env : ImageEnv) (inp prev : String)
    (h : imageProbe key env = ProbeResult.success inp prev) : prev.length ≤ 300 := by
  unfold imageProbe imageTry at h
  split at h
  · next r heq =>
      subst h
      repeat' split at heq
      all_goals
        first
          | (injection heq with h1; injection h1 with ha hb; rw [← hb];
             exact pyTake_length_le 300 _)
          | injection heq
  · next e heq => simp at h

/-- C1: for every run that completes (the credential check passes and the
script reaches the report-writing step), the report's results mapping
contains exactly three entries, with keys gpt_oss_120b, whisper_large_v2
and deepseek_ocr, regardless of how many of the three probes succeeded
or failed. -/
theorem claim_C1 (env : RunEnv) (o : RunOutcome) (h : runScript env = Except.ok o) :
    o.report.results.map Prod.fst = ["gpt_oss_120b", "whisper_large_v2", "deepseek_ocr"] ∧
    o.report.results.length = 3 := by
  obtain ⟨key, hk, rfl⟩ := runScript_ok_inv env o h
  simp [builtReport]

/-- C1 witness: a concrete completed run with the three keys. -/
theorem claim_C1_witness :
    runScript envAll = Except.ok outAll ∧
    outAll.report.results.map Prod.fst = ["gpt_oss_120b", "whisper_large_v2", "deepseek_ocr"] :=
  ⟨rfl, (claim_C1 envAll outAll rfl).1⟩

/-- C2: any exception raised inside a probe's body is caught at the probe
boundary and becomes a failure record carrying the exception's string for
that probe's key; it never propagates (the run still completes and the
results are exactly the three probes' own records, each a function of its
own probe environment only, so the other two entries are unaffected).
The audio conjunct about `removeResult` covers an exception raised after
the success assignment, which the same handler also converts. -/
theorem claim_C2 (env : RunEnv) (key : String) (hk : getKey env.apiKey = Except.ok key) :
    (runScript env).map (fun o => o.report.results) =
      Except.ok
        [("gpt_oss_120b", textProbe key env.text),
         ("whisper_large_v2", audioProbe key env.audio),
         ("deepseek_ocr", imageProbe key env.image)] ∧
    (∀ e, textTry key env.text = Except.error e →
       textProbe key env.text = ProbeResult.failure e) ∧
    (∀ e, audioTryToAssign key env.audio = Except.error e →
       audioProbe key env.audio = ProbeResult.failure e) ∧
    (∀ rec e, audioTryToAssign key env.audio = Except.ok rec →
       env.audio.removeResult = Except.error e →
       audioProbe key env.audio = ProbeResult.failure e) ∧
    (∀ e, imageTry key env.image = Except.error e →
       imageProbe key env.image = ProbeResult.failure e) := by
  refine ⟨?_, ?_, ?_, ?_, ?_⟩
  · simp [runScript, hk, builtReport, Except.map]
  · intro e he; simp [textProbe, he]
  · intro e he; simp [audioProbe, he]
  · intro rec e hok hrem; simp [audioProbe, hok, hrem]
  · intro e he; simp [imageProbe, he]

/-- C2 witness: a run whose text fetch raises with message boom ends with
a failure record under gpt_oss_120b while the sibling probes keep their
own records. -/
theorem claim_C2_witness :
    (runScript envTextRaise).map (fun o => o.report.results) =
      Except.ok
        [("gpt_oss_120b", textProbe ("k") textEnvRaise),
         ("whisper_large_v2", audioProbe ("k") audioEnvA),
         ("deepseek_ocr", imageProbe ("k") imageEnvA)] ∧
    textProbe ("k") textEnvRaise = ProbeResult.failure ("boom") :=
  ⟨(claim_C2 envTextRaise ("k") rfl).1, (claim_C2 envTextRaise ("k") rfl).2.1 ("boom") rfl⟩

/-- C3: if the environment credential is absent or the empty string, the
run fails immediately and fatally with the RuntimeError, performing no
observable action at all (no probe invocation, no file write, no print,
no report); and this is the only condition that aborts the whole run:
with any nonempty credential the run completes with a report. -/
theorem claim_C3 (env : RunEnv) :
    ((env.apiKey = none ∨ env.apiKey = some "") →
       runScript env = Except.error ("SIMPLISMART_API_KEY not set") ∧ runEvents env = []) ∧
    (∀ k, env.apiKey = some k → ¬ k = "" → ∃ o, runScript env = Except.ok o) := by
  constructor
  · intro h
    rcases h with h | h
    · exact ⟨by simp [runScript, getKey, h], by simp [runEvents, getKey, h]⟩
    · exact ⟨by simp [runScript, getKey, h], by simp [runEvents, getKey, h]⟩
  · intro k hk hne
    refine ⟨{ report := builtReport k env
              path := outputPath env.cwd env.today
              fileContent := jsonDumps (builtReport k env)
              stdout := jsonDumps (builtReport k env) }, ?_⟩
    simp [runScript, getKey, hk, hne]

/-- C3 witness: the unset and the empty credential each abort with no
events, and a nonempty credential completes. -/
theorem claim_C3_witness :
    (runScript envNoKey = Except.error ("SIMPLISMART_API_KEY not set") ∧
      runEvents envNoKey = []) ∧
    (runScript envEmptyKey = Except.error ("SIMPLISMART_API_KEY not set") ∧
      runEvents envEmptyKey = []) ∧
    (∃ o, runScript envAll = Except.ok o) :=
  ⟨(claim_C3 envNoKey).1 (Or.inl rfl),
   (claim_C3 envEmptyKey).1 (Or.inr rfl),
   (claim_C3 envAll).2 ("k") rfl (by decide)⟩

/-- C4 counterexample: a run in which the text source responds with HTTP
status 500 yet the gpt_oss_120b entry of the final report is a success
record, because `requests.get(text_url).text` never inspects the status
code and the error body is summarized like any other document.  This
refutes the claim that an HTTP 500 from the text source yields a failure
entry. -/
theorem claim_C4_counterexample :
    env500.text.fetch (chosenTextUrl env500.text.choice) =
      Except.ok { status := 500, body := "Internal Server Error" } ∧
    (runScript env500).map (fun o => o.report.results) =
      Except.ok
        [("gpt_oss_120b", ProbeResult.success (chosenTextUrl 0) (pyTake 300 ("sum"))),
         ("whisper_large_v2", ProbeResult.success (audioUrl 0) (pyTake 300 ("\x7b\x7d"))),
         ("deepseek_ocr", ProbeResult.success (imageUrl 1) (pyTake 300 ("ocr text")))] :=
  ⟨rfl, rfl⟩

/-- C4 amended: whenever the text fetch raises an exception (network
error, timeout, DNS failure), the gpt_oss_120b entry of the final report
is the failure record carrying the exception's string, while the audio
and image entries are still populated normally by their own probes.  An
HTTP 500 response that returns a body does not by itself fail the probe
(see the counterexample): the entry is a failure exactly when the fetch
or the completion call raises. -/
theorem claim_C4_amended (env : RunEnv) (key e : String)
    (hk : getKey env.apiKey = Except.ok key)
    (hf : env.text.fetch (chosenTextUrl env.text.choice) = Except.error e) :
    (runScript env).map (fun o => o.report.results) =
      Except.ok
        [("gpt_oss_120b", ProbeResult.failure e),
         ("whisper_large_v2", audioProbe key env.audio),
         ("deepseek_ocr", imageProbe key env.image)] := by
  have ht : textProbe key env.text = ProbeResult.failure e := by
    simp [textProbe, textTry, truncatedFetch, hf]
  simp [runScript, hk, builtReport, Except.map, ht]

/-- C4 witness: a raising text fetch produces the failure entry while the
siblings keep their records. -/
theorem claim_C4_witness :
    (runScript envTextRaise).map (fun o => o.report.results) =
      Except.ok
        [("gpt_oss_120b", ProbeResult.failure ("boom")),
         ("whisper_large_v2", audioProbe ("k") audioEnvA),
         ("deepseek_ocr", imageProbe ("k") imageEnvA)] :=
  claim_C4_amended envTextRaise ("k") ("boom") rfl rfl

/-- C5: in every completed run, every result record that carries an
output_preview field (the success records) has a preview of at most 300
characters. -/
theorem claim_C5 (env : RunEnv) (o : RunOutcome) (k inp prev : String)
    (h : runScript env = Except.ok o)
    (hmem : (k, ProbeResult.success inp prev) ∈ o.report.results) :
    prev.length ≤ 300 := by
  obtain ⟨key, hk, rfl⟩ := runScript_ok_inv env o h
  simp [builtReport] at hmem
  rcases hmem with ⟨h1, h2⟩ | ⟨h1, h2⟩ | ⟨h1, h2⟩
  · exact textProbe_preview_le key env.text inp prev h2.symm
  · exact audioProbe_preview_le key env.audio inp prev h2.symm
  · exact imageProbe_preview_le key env.image inp prev h2.symm

/-- C5 witness: a concrete success entry of a completed run obeys the 300
character bound. -/
theorem claim_C5_witness :
    ((("gpt_oss_120b" : String), ProbeResult.success (chosenTextUrl 0) (pyTake 300 ("sum"))) ∈
      outAll.report.results) ∧
    (pyTake 300 ("sum")).length ≤ 300 :=
  ⟨by decide,
   claim_C5 envAll outAll ("gpt_oss_120b") (chosenTextUrl 0) (pyTake 300 ("sum")) rfl (by decide)⟩

/-- C6: the text handed to the text-model completion request is the
fetched document truncated to its first 2000 characters, hence never
longer than 2000 characters; and the rest of the probe consists exactly
of submitting the request built from that truncated text. -/
theorem claim_C6 (key : String) (env : TextEnv) (t : String)
    (h : truncatedFetch env (chosenTextUrl env.choice) = Except.ok t) :
    t.length ≤ 2000 ∧
    (∀ r, env.fetch (chosenTextUrl env.choice) = Except.ok r → t = pyTake 2000 r.body) ∧
    textTry key env =
      Except.map (fun c => ProbeResult.success (chosenTextUrl env.choice) (pyTake 300 c))
        (env.complete (textRequest key t)) := by
  unfold truncatedFetch at h
  cases hf : env.fetch (chosenTextUrl env.choice) with
  | error e => rw [hf] at h; exact absurd h (by simp)
  | ok r =>
      rw [hf] at h
      injection h with h1
      subst h1
      refine ⟨pyTake_length_le 2000 _, ?_, ?_⟩
      · intro r2 hr2
        injection hr2 with h2
        rw [← h2]
      · simp only [textTry, truncatedFetch, hf]
        cases hc : env.complete (textRequest key (pyTake 2000 r.body)) with
        | error e => simp [hc, Except.map]
        | ok c => simp [hc, Except.map]

/-- C6 witness: a concrete fetched document is truncated within the 2000
character bound and drives the completion request. -/
theorem claim_C6_witness :
    (pyTake 2000 ("some text")).length ≤ 2000 ∧
    textTry ("k") textEnvA =
      Except.map (fun c => ProbeResult.success (chosenTextUrl 0) (pyTake 300 c))
        (textEnvA.complete (textRequest ("k") (pyTake 2000 ("some text")))) :=
  ⟨(claim_C6 ("k") textEnvA (pyTake 2000 ("some text")) rfl).1,
   (claim_C6 ("k") textEnvA (pyTake 2000 ("some text")) rfl).2.2⟩

/-- C7: every completed run persists the report at
output-dir/daily_model_health_ISO-date.json for the run's date; two runs
on the same calendar date (and working directory) write to the same
path, the later write overwriting the earlier content, and no other path
is touched (last-write-wins, no append, no second file). -/
theorem claim_C7 (env1 env2 : RunEnv) (o1 o2 : RunOutcome) (fs : FS)
    (h1 : runScript env1 = Except.ok o1) (h2 : runScript env2 = Except.ok o2)
    (hcwd : env1.cwd = env2.cwd) (hday : env1.today = env2.today) :
    o1.path = o2.path ∧
    o2.path = OUTPUT_DIR env2.cwd ++ "/daily_model_health_" ++ env2.today ++ ".json" ∧
    writeFile (writeFile fs o1.path o1.fileContent) o2.path o2.fileContent o2.path =
      some o2.fileContent ∧
    (∀ q, ¬ q = o2.path →
       writeFile (writeFile fs o1.path o1.fileContent) o2.path o2.fileContent q = fs q) := by
  obtain ⟨k1, hk1, rfl⟩ := runScript_ok_inv env1 o1 h1
  obtain ⟨k2, hk2, rfl⟩ := runScript_ok_inv env2 o2 h2
  have hp : outputPath env1.cwd env1.today = outputPath env2.cwd env2.today := by
    rw [hcwd, hday]
  refine ⟨hp, rfl, ?_, ?_⟩
  · simp [writeFile]
  · intro q hq
    have hq1 : ¬ q = outputPath env1.cwd env1.today := by rw [hp]; exact hq
    simp [writeFile, hq, hq1]

/-- C7 witness: two concrete same-date runs share a path and the second
write wins on an initially empty file system. -/
theorem claim_C7_witness :
    outAll.path = out500.path ∧
    out500.path = OUTPUT_DIR ("/app") ++ "/daily_model_health_" ++ ("2026-01-01") ++ ".json" ∧
    writeFile (writeFile emptyFS outAll.path outAll.fileContent) out500.path out500.fileContent
        out500.path = some out500.fileContent :=
  ⟨(claim_C7 envAll env500 outAll out500 emptyFS rfl rfl rfl rfl).1,
   (claim_C7 envAll env500 outAll out500 emptyFS rfl rfl rfl rfl).2.1,
   (claim_C7 envAll env500 outAll out500 emptyFS rfl rfl rfl rfl).2.2.1⟩

/-- C8: for every completed run, the serialization handed to `print`
(the text emitted on standard output, up to the line terminator `print`
appends) is identical to the content written to the persisted report
file: both are the same `json.dumps(report, indent=2)` of the same
report value. -/
theorem claim_C8 (env : RunEnv) (o : RunOutcome) (h : runScript env = Except.ok o) :
    o.stdout = o.fileContent ∧ o.fileContent = jsonDumps o.report := by
  obtain ⟨key, hk, rfl⟩ := runScript_ok_inv env o h
  exact ⟨rfl, rfl⟩

/-- C8 witness: the concrete completed run prints exactly the persisted
serialization. -/
theorem claim_C8_witness :
    outAll.stdout = outAll.fileContent ∧ outAll.fileContent = jsonDumps outAll.report :=
  claim_C8 envAll outAll rfl

/-- C9 counterexample: a run in which the audio probe records its success
record and `os.remove` then raises assigns two records to the
whisper_large_v2 key — the success record is replaced by a failure
record by the shared `except` handler — refuting the claim that a
recorded result is never replaced or modified by a later step of the
same run. -/
theorem claim_C9_counterexample :
    ¬ ((audioAssigned ("k") audioEnvRemoveFail).length = 1) ∧
    audioAssigned ("k") audioEnvRemoveFail =
      [ProbeResult.success (audioUrl 0) (pyTake 300 ("\x7b\x7d")),
       ProbeResult.failure ("remove failed")] ∧
    audioProbe ("k") audioEnvRemoveFail = ProbeResult.failure ("remove failed") :=
  ⟨by decide, rfl, rfl⟩

/-- C9 amended: every completed run holds exactly one result record per
model key, and a probe's recorded result is never replaced by a later
step, with one exception: when the audio probe's temporary-file removal
(which sits after the success assignment inside the same try block)
raises, the recorded success record is overwritten by the failure
record of that exception. -/
theorem claim_C9_amended :
    (∀ env o, runScript env = Except.ok o → (o.report.results.map Prod.fst).Nodup) ∧
    (∀ key env, audioAssigned key env = [audioProbe key env] ∨
       ∃ inp prev e,
         audioAssigned key env = [ProbeResult.success inp prev, ProbeResult.failure e] ∧
         env.removeResult = Except.error e ∧
         audioProbe key env = ProbeResult.failure e) := by
  constructor
  · intro env o h
    obtain ⟨key, hk, rfl⟩ := runScript_ok_inv env o h
    simp [builtReport]
  · intro key env
    unfold audioAssigned audioProbe
    cases ht : audioTryToAssign key env with
    | error e => left; rfl
    | ok rec =>
        cases hr : env.removeResult with
        | ok u => left; rfl
        | error e =>
            right
            obtain ⟨s, hs⟩ := audioTryToAssign_ok_shape key env rec ht
            refine ⟨audioUrl env.choice, pyTake 300 s, e, by rw [hs], ?_, rfl⟩
            first
              | exact hr
              | rfl

/-- C9 witness: the concrete completed run has pairwise distinct keys. -/
theorem claim_C9_witness :
    (outAll.report.results.map Prod.fst).Nodup :=
  claim_C9_amended.1 envAll outAll rfl

/-- C10: the audio probe decides success solely by whether the earlier
steps and the JSON parse of the response body succeed — the response's
HTTP status code is unconstrained in the hypotheses, so any response
whose body parses as JSON (a JSON-bodied 500 included) yields a success
record with the stringified response as preview. -/
theorem claim_C10 (key : String) (env : AudioEnv) (bytes : List Nat) (resp : HttpResp)
    (s : String)
    (h1 : env.fetchAudio (audioUrl env.choice) = Except.ok bytes)
    (h2 : env.post (whisperPayload (b64encode bytes)) (whisperHeaders key) = Except.ok resp)
    (h3 : env.parseJson resp.body = Except.ok s)
    (h4 : env.removeResult = Except.ok ()) :
    audioProbe key env = ProbeResult.success (audioUrl env.choice) (pyTake 300 s) := by
  simp [audioProbe, audioTryToAssign, h1, h2, h3, h4]

/-- C10 witness: a whisper POST answered with HTTP status 500 and a JSON
body still ends in a success record. -/
theorem claim_C10_witness :
    audioEnv500.post (whisperPayload (b64encode [104, 105])) (whisperHeaders ("k")) =
      Except.ok { status := 500, body := "\x7b\x7d" } ∧
    audioProbe ("k") audioEnv500 =
      ProbeResult.success (audioUrl 0) (pyTake 300 ("\x7b\x7d")) :=
  ⟨rfl,
   claim_C10 ("k") audioEnv500 [104, 105] { status := 500, body := "\x7b\x7d" } ("\x7b\x7d")
     rfl rfl rfl rfl⟩
